import Mathlib

/-!
Shallow embedding of the MAX78000 SPI driver
(`drivers/platform/maxim/max78000/maxim_spi.c`) and proofs about its
delay-calibration and transfer-loop logic.

Machine integers are modelled as `Nat` with an explicit `% 2 ^ 32`
wherever the C `uint32_t` arithmetic can overflow.  Hardware registers
and the vendor HAL are modelled explicitly: the `sstime` register is a
record of its bit fields, and the results of the HAL calls
(`MXC_SPI_MasterTransaction`, the configuration step) are supplied by an
environment record so the driver's control flow over them can be
proved.
-/

namespace MaximSpi

/-- Word size of the C `uint32_t` arithmetic in the driver. -/
def U32 : Nat := 2 ^ 32

/-- Source constant `MAX_DELAY_SCLK` (maxim_spi.c line 60). -/
def MAX_DELAY_SCLK : Nat := 255

/-- Source constant `NS_PER_US` (maxim_spi.c line 61). -/
def NS_PER_US : Nat := 1000

/-- Modelled from the spec: the `NANO` constant of `no_os_units.h`
(header not under src/), the number of nanoseconds per second used to
derive the tick period from the peripheral clock rate. -/
def NANO : Nat := 1000000000

/-- Modelled from the spec: the `NO_OS_DIV_ROUND_CLOSEST(x, y)` macro of
`no_os_util.h` (header not under src/), unsigned round-to-nearest
division `(x + y / 2) / y` — the spec's "integer division with
round-to-nearest". -/
def NO_OS_DIV_ROUND_CLOSEST (x y : Nat) : Nat := (x + y / 2) / y

/-- Modelled from the spec: Maxim SDK result code `E_BAD_PARAM`
(`mxc_errors.h`, not under src/), the invalid-parameter condition the
spec maps to `InvalidArgument`. -/
def E_BAD_PARAM : Int := -3

/-- Modelled from the spec: Maxim SDK result code `E_BAD_STATE`
(`mxc_errors.h`, not under src/), the busy/wrong-state condition the
spec maps to `BusBusy`. -/
def E_BAD_STATE : Int := -7

/-- POSIX `EINVAL`; the driver returns `-EINVAL`. -/
def EINVAL : Int := 22

/-- POSIX `EBUSY`; the driver returns `-EBUSY`. -/
def EBUSY : Int := 16

/-- The `sstime` delay register of the SPI peripheral, modelled by its
bit fields: `pre` is the `MXC_F_SPI_SSTIME_PRE` field (first/setup
chip-select delay ticks), `post` is the `MXC_F_SPI_SSTIME_POST` field
(last/hold chip-select delay ticks), and `rest` stands for the remaining
bits of the register, which the driver never touches. -/
structure SsTime where
  pre : Nat
  post : Nat
  rest : Nat
  deriving Repr, DecidableEq

/-- The private driver state `struct max_spi_state`: the cached
last-applied first and last chip-select delays (µs, `uint32_t`). -/
structure MaxSpiState where
  cs_delay_first : Nat
  cs_delay_last : Nat
  deriving Repr, DecidableEq

/-- One transfer message, `struct no_os_spi_msg`.  Buffers are modelled
by an optional abstract address (`none` is a NULL pointer). -/
structure SpiMsg where
  tx_buff : Option Nat
  rx_buff : Option Nat
  bytes_number : Nat
  cs_change : Nat
  cs_change_delay : Nat
  cs_delay_first : Nat
  cs_delay_last : Nat
  deriving Repr, DecidableEq

/-- Rounded nanoseconds per peripheral-clock tick:
`ticks_ns = NO_OS_DIV_ROUND_CLOSEST(NANO, clk_rate)` (line 90). -/
def ticksNs (clk_rate : Nat) : Nat := NO_OS_DIV_ROUND_CLOSEST NANO clk_rate

/-- Tick count computed for the first chip-select delay (lines 97-100):
`1` when the message's first delay is zero, otherwise the truncated
quotient `msg->cs_delay_first * NS_PER_US / ticks_ns`, with the product
taken in `uint32_t` arithmetic. -/
def firstTicks (clk_rate d : Nat) : Nat :=
  if d = 0 then 1 else d * NS_PER_US % U32 / ticksNs clk_rate

/-- Tick count computed for the last chip-select delay (lines 115-118).
The zero test reads the message's FIRST-delay field (`dFirst`), exactly
as the source does on line 115, while the quotient is taken over the
last-delay field (`dLast`). -/
def lastTicks (clk_rate dFirst dLast : Nat) : Nat :=
  if dFirst = 0 then 1 else dLast * NS_PER_US % U32 / ticksNs clk_rate

/-- The delay applier `_max_delay_config` (lines 73-136).  Takes the
peripheral clock rate, the cached driver state, the current `sstime`
register value and the message; returns the new driver state and
register value.  The function returns early when both delays match the
cache; on an out-of-range tick count for either field it jumps to
`error:`, restoring the register from the snapshot taken on entry and
leaving the cache unmodified. -/
def max_delay_config (clk_rate : Nat) (st : MaxSpiState) (sstime : SsTime)
    (msg : SpiMsg) : MaxSpiState × SsTime :=
  if msg.cs_delay_first = st.cs_delay_first ∧ msg.cs_delay_last = st.cs_delay_last then
    (st, sstime)
  else
    let sstime_cache := sstime
    let afterFirst : Option SsTime :=
      if msg.cs_delay_first ≠ st.cs_delay_first then
        let ticks_delay := firstTicks clk_rate msg.cs_delay_first
        if ticks_delay > MAX_DELAY_SCLK then none
        else some { sstime with pre := ticks_delay }
      else some sstime
    match afterFirst with
    | none => (st, sstime_cache)
    | some s1 =>
      let afterLast : Option SsTime :=
        if msg.cs_delay_last ≠ st.cs_delay_last then
          let ticks_delay := lastTicks clk_rate msg.cs_delay_first msg.cs_delay_last
          if ticks_delay > MAX_DELAY_SCLK then none
          else some { s1 with post := ticks_delay }
        else some s1
      match afterLast with
      | none => (st, sstime_cache)
      | some s2 =>
        ({ cs_delay_first := msg.cs_delay_first, cs_delay_last := msg.cs_delay_last }, s2)

/-- The SPI descriptor fields `max_spi_transfer` reads:
`device_id` (bus instance index) and `chip_select`. -/
structure SpiDesc where
  device_id : Nat
  chip_select : Nat
  deriving Repr, DecidableEq

/-- The fields of `mxc_spi_req_t` that the loop fills per message
(lines 314-323): buffers, lengths, chip-select deassert flag and the
addressed slave index. -/
structure Req where
  txData : Option Nat
  rxData : Option Nat
  txLen : Nat
  rxLen : Nat
  ssDeassert : Nat
  ssIdx : Nat
  deriving Repr, DecidableEq

/-- One observable hardware operation of a transfer call: a call of the
bus configuration step `_max_spi_config`, a hardware transaction
`MXC_SPI_MasterTransaction(&req)`, or the pacing delay
`no_os_udelay(cs_change_delay)`. -/
inductive Event where
  | configCall : Event
  | hwTrans : Req → Event
  | udelay : Nat → Event
  deriving Repr, DecidableEq

/-- The environment supplying results of the HAL calls the source file
delegates to: `config_res` is the result `_max_spi_config` would return
(its body calls `MXC_SPI_Init`/`SetMode`/... outside src/), `trans_res i`
is the result of the `i`-th `MXC_SPI_MasterTransaction` of the call, and
`clk_rate` is what `MXC_SPI_GetPeripheralClock` reports. -/
structure HwEnv where
  config_res : Int
  trans_res : Nat → Int
  clk_rate : Nat

/-- The state a transfer call reads and writes: the process-wide
`last_slave_id` table (one entry per bus instance, modelled as a
function from instance index), the private delay cache and the `sstime`
register. -/
structure TransferState where
  table : Nat → Nat
  st : MaxSpiState
  sstime : SsTime

/-- The request built for message `msg` (lines 317-323): lengths are the
message's byte count for a non-NULL buffer and `0` for a NULL one. -/
def mkReq (desc : SpiDesc) (msg : SpiMsg) : Req :=
  { txData := msg.tx_buff
    rxData := msg.rx_buff
    txLen := if msg.tx_buff.isSome then msg.bytes_number else 0
    rxLen := if msg.rx_buff.isSome then msg.bytes_number else 0
    ssDeassert := msg.cs_change
    ssIdx := desc.chip_select }

/-- The per-message loop of `max_spi_transfer` (lines 316-333), indexed
by the position `i` of the first remaining message.  For each message it
applies the delay configuration, runs the hardware transaction, maps
`E_BAD_PARAM` to `-EINVAL` and `E_BAD_STATE` to `-EBUSY` (returning
immediately), and otherwise — for any other result, zero or not —
performs the pacing delay and continues with the next message.  Returns
the `int32_t` result, the final delay cache and register, and the trace
of hardware operations. -/
def transferMsgs (env : HwEnv) (desc : SpiDesc) :
    List SpiMsg → Nat → MaxSpiState × SsTime →
    Int × (MaxSpiState × SsTime) × List Event
  | [], _, p => (0, p, [])
  | msg :: rest, i, p =>
    let req := mkReq desc msg
    let p2 := max_delay_config env.clk_rate p.1 p.2 msg
    let ret := env.trans_res i
    if ret = E_BAD_PARAM then (-EINVAL, p2, [Event.hwTrans req])
    else if ret = E_BAD_STATE then (-EBUSY, p2, [Event.hwTrans req])
    else
      let cont := transferMsgs env desc rest (i + 1) p2
      (cont.1, cont.2.1,
        Event.hwTrans req :: Event.udelay msg.cs_change_delay :: cont.2.2)

/-- The transfer entry point `max_spi_transfer` (lines 293-336).  NULL
`desc` or `msgs` yields `-EINVAL`.  When the descriptor's chip select
differs from the `last_slave_id` entry of its bus instance, the bus
configuration step runs first: on failure its result is returned with
nothing else done; on success the table entry is updated.  Then the
message loop runs. -/
def max_spi_transfer (env : HwEnv) (s : TransferState) (desc : Option SpiDesc)
    (msgs : Option (List SpiMsg)) : Int × TransferState × List Event :=
  match desc, msgs with
  | none, _ => (-EINVAL, s, [])
  | some _, none => (-EINVAL, s, [])
  | some d, some ms =>
    let slave_id := d.chip_select
    if slave_id ≠ s.table d.device_id then
      if env.config_res ≠ 0 then
        (env.config_res, s, [Event.configCall])
      else
        let table2 := fun i => if i = d.device_id then slave_id else s.table i
        let res := transferMsgs env d ms 0 (s.st, s.sstime)
        (res.1, ⟨table2, res.2.1.1, res.2.1.2⟩, Event.configCall :: res.2.2)
    else
      let res := transferMsgs env d ms 0 (s.st, s.sstime)
      (res.1, ⟨s.table, res.2.1.1, res.2.1.2⟩, res.2.2)

/-- The convenience wrapper `max_spi_write_and_read` (lines 345-357): it
builds a single message whose transmit and receive buffers are both
`data`, whose byte count is `bytes_number`, whose `cs_change` flag is 1
and whose remaining fields are zero-filled by the C designated
initializer, and hands it to `max_spi_transfer`. -/
def max_spi_write_and_read (env : HwEnv) (s : TransferState)
    (desc : Option SpiDesc) (data : Option Nat) (bytes_number : Nat) :
    Int × TransferState × List Event :=
  max_spi_transfer env s desc
    (some [{ tx_buff := data
             rx_buff := data
             bytes_number := bytes_number
             cs_change := 1
             cs_change_delay := 0
             cs_delay_first := 0
             cs_delay_last := 0 }])

/-- Number of bus-configuration-step invocations recorded in a trace. -/
def countConfigs (tr : List Event) : Nat :=
  tr.countP fun e => match e with
    | Event.configCall => true
    | _ => false

/-- A sequence of `max_spi_transfer` calls, threading the process-wide
table, delay cache and register through and concatenating the traces. -/
def runCalls (env : HwEnv) (s : TransferState) :
    List (SpiDesc × List SpiMsg) → TransferState × List Event
  | [] => (s, [])
  | (d, ms) :: rest =>
    let res := max_spi_transfer env s (some d) (some ms)
    let res2 := runCalls env res.2.1 rest
    (res2.1, res.2.2 ++ res2.2)

/-- Number of hardware transactions recorded in a trace. -/
def countTrans (tr : List Event) : Nat :=
  tr.countP fun e => match e with
    | Event.hwTrans _ => true
    | _ => false

/-- A sequence of single-bus transfer calls whose chip-select index
alternates between `a` and `b` on each call, every call carrying the
message list `ms` on bus instance `dev`. -/
def altCalls (dev a b : Nat) (ms : List SpiMsg) : Nat → List (SpiDesc × List SpiMsg)
  | 0 => []
  | n + 1 => (⟨dev, a⟩, ms) :: altCalls dev b a ms n

/-- The first-delay branch of the applier takes the `error` exit:
the field changed and its computed tick count exceeds
`MAX_DELAY_SCLK` (lines 92-105). -/
def delayFirstRejects (clk_rate : Nat) (st : MaxSpiState) (msg : SpiMsg) : Prop :=
  msg.cs_delay_first ≠ st.cs_delay_first ∧
    firstTicks clk_rate msg.cs_delay_first > MAX_DELAY_SCLK

/-- The last-delay branch of the applier takes the `error` exit:
the field changed and its computed tick count exceeds
`MAX_DELAY_SCLK` (lines 110-123). -/
def delayLastRejects (clk_rate : Nat) (st : MaxSpiState) (msg : SpiMsg) : Prop :=
  msg.cs_delay_last ≠ st.cs_delay_last ∧
    lastTicks clk_rate msg.cs_delay_first msg.cs_delay_last > MAX_DELAY_SCLK

/-! ## Claim theorems -/

/-- C1: the claim says the substitution of the minimum tick count 1 in
the last-delay computation is decided by the message's own last-delay
field.  The code decides it by the FIRST-delay field (line 115).  At a
100 MHz clock (10 ns/tick): a message with `cs_delay_first = 5` (equal
to the cache, nonzero) and `cs_delay_last = 0` gets `post = 0` written
(0·1000/10), not the substituted 1; a message with `cs_delay_first = 0`
and `cs_delay_last = 7` gets the substituted `post = 1` even though its
last delay is nonzero. -/
theorem c1_last_zero_check_reads_first_field :
    (max_delay_config 100000000 ⟨5, 5⟩ ⟨7, 7, 9⟩
        ⟨none, none, 0, 0, 0, 5, 0⟩).2.post = 0 ∧
    (max_delay_config 100000000 ⟨0, 5⟩ ⟨7, 7, 9⟩
        ⟨none, none, 0, 0, 0, 0, 7⟩).2.post = 1 := by decide

/-- C4: the claim says a raw tick value 0 is never written to the
sstime register.  At a 400 kHz clock the tick period rounds to 2500 ns,
so a requested first delay of 1 µs truncates to 0 ticks, which the
applier accepts (it is not above `MAX_DELAY_SCLK`) and writes to the
PRE field, committing the new cache — the 256-tick "maximum span"
encoding the code's own comment forbids. -/
theorem c4_zero_ticks_written_to_pre :
    (max_delay_config 400000 ⟨0, 0⟩ ⟨7, 7, 9⟩
        ⟨none, none, 0, 0, 0, 1, 0⟩).2.pre = 0 ∧
    (max_delay_config 400000 ⟨0, 0⟩ ⟨7, 7, 9⟩
        ⟨none, none, 0, 0, 0, 1, 0⟩).1 = ⟨1, 0⟩ := by decide

/-- C10: the product `cs_delay_first * NS_PER_US` is `uint32_t`
arithmetic, so for the requested delay 4294968 µs (> 4294967 µs) it
wraps to 704; at a 100 MHz clock (10 ns/tick) the true tick count
429496800 is far above `MAX_DELAY_SCLK`, yet the wrapped conversion
yields 70 ticks, which is accepted, written to the PRE field and
committed to the cache instead of the delay being rejected. -/
theorem c10_uint32_wrap_writes_in_range_ticks :
    4294967 < 4294968 ∧
    MAX_DELAY_SCLK < 4294968 * NS_PER_US / ticksNs 100000000 ∧
    (max_delay_config 100000000 ⟨0, 0⟩ ⟨7, 7, 9⟩
        ⟨none, none, 0, 0, 0, 4294968, 0⟩).2.pre = 70 ∧
    (max_delay_config 100000000 ⟨0, 0⟩ ⟨7, 7, 9⟩
        ⟨none, none, 0, 0, 0, 4294968, 0⟩).1.cs_delay_first = 4294968 := by
  decide

/-- C2 counterexample: a two-message transfer in which every hardware
transaction returns the nonzero result -9 (neither `E_BAD_PARAM` nor
`E_BAD_STATE`).  Contrary to the claim, the failure does not abort the
sequence and is not returned: both transactions run and the call
returns 0. -/
theorem c2_other_nonzero_results_ignored :
    (-9 : Int) ≠ 0 ∧
    (max_spi_transfer ⟨0, fun _ => -9, 100000000⟩
        ⟨fun _ => 0, ⟨0, 0⟩, ⟨1, 1, 0⟩⟩ (some ⟨0, 0⟩)
        (some [⟨some 1, some 1, 4, 1, 0, 0, 0⟩,
               ⟨some 1, some 1, 4, 1, 0, 0, 0⟩])).1 = 0 ∧
    countTrans (max_spi_transfer ⟨0, fun _ => -9, 100000000⟩
        ⟨fun _ => 0, ⟨0, 0⟩, ⟨1, 1, 0⟩⟩ (some ⟨0, 0⟩)
        (some [⟨some 1, some 1, 4, 1, 0, 0, 0⟩,
               ⟨some 1, some 1, 4, 1, 0, 0, 0⟩])).2.2 = 2 := by decide

/-- C3 counterexample: at a 7 MHz clock the tick period rounds to
143 ns.  For a requested first delay of 1 µs the applier writes the
truncated quotient 1000/143 = 6, while the round-to-nearest quotient
the claim demands is 7. -/
theorem c3_truncates_instead_of_rounding :
    (max_delay_config 7000000 ⟨0, 0⟩ ⟨9, 9, 9⟩
        ⟨none, none, 0, 0, 0, 1, 0⟩).2.pre = 6 ∧
    NO_OS_DIV_ROUND_CLOSEST (1 * NS_PER_US) (ticksNs 7000000) = 7 := by
  decide

/-- C6 counterexample: at a fixed 500 kHz clock (tick period rounds to
2000 ns) the delay d = 0 yields tick count 1 but d = 1 yields tick
count 0, so the computed tick count is not monotonic non-decreasing in
d. -/
theorem c6_not_monotonic_at_slow_clock :
    (max_delay_config 500000 ⟨5, 5⟩ ⟨7, 7, 9⟩
        ⟨none, none, 0, 0, 0, 0, 5⟩).2.pre = 1 ∧
    (max_delay_config 500000 ⟨5, 5⟩ ⟨7, 7, 9⟩
        ⟨none, none, 0, 0, 0, 1, 5⟩).2.pre = 0 ∧
    ¬((max_delay_config 500000 ⟨5, 5⟩ ⟨7, 7, 9⟩
        ⟨none, none, 0, 0, 0, 0, 5⟩).2.pre ≤
      (max_delay_config 500000 ⟨5, 5⟩ ⟨7, 7, 9⟩
        ⟨none, none, 0, 0, 0, 1, 5⟩).2.pre) := by decide

/-- C8 counterexample: three transfer calls addressing chip select 0
repeatedly on bus instance 0, whose `last_slave_id` entry is its
zero-initial value 0.  The bus configuration step is invoked zero
times, not exactly once as the claim states. -/
theorem c8_zero_invocations_when_entry_matches :
    countConfigs (runCalls ⟨0, fun _ => 0, 100000000⟩
        ⟨fun _ => 0, ⟨0, 0⟩, ⟨1, 1, 0⟩⟩
        (List.replicate 3 (⟨0, 0⟩, [⟨none, none, 2, 1, 0, 0, 0⟩]))).2 = 0 ∧
    (0 : Nat) ≠ 1 := by decide

/-- C9: `max_spi_write_and_read desc data n` is definitionally the
transfer of the single message with transmit and receive buffers both
`data`, byte count `n`, `cs_change` set to 1 and all remaining fields
zero — same result, same final state, and same sequence of hardware
operations. -/
theorem c9_write_and_read_refines_transfer (env : HwEnv) (s : TransferState)
    (desc : Option SpiDesc) (data : Option Nat) (n : Nat) :
    max_spi_write_and_read env s desc data n =
      max_spi_transfer env s desc
        (some [{ tx_buff := data
                 rx_buff := data
                 bytes_number := n
                 cs_change := 1
                 cs_change_delay := 0
                 cs_delay_first := 0
                 cs_delay_last := 0 }]) := rfl

/-- C5: when either changed delay field computes a tick count above
`MAX_DELAY_SCLK`, the applier takes the `error` exit: the sstime
register is restored exactly to its entry value and the cache is left
unchanged (the returned pair equals the inputs), and the transfer loop
still begins the message's hardware transaction (the first event of the
remaining trace is that transaction). -/
theorem c5_out_of_range_restores_register (env : HwEnv) (st : MaxSpiState)
    (ss : SsTime) (msg : SpiMsg) (d : SpiDesc) (rest : List SpiMsg) (i : Nat)
    (h : delayFirstRejects env.clk_rate st msg ∨
         delayLastRejects env.clk_rate st msg) :
    max_delay_config env.clk_rate st ss msg = (st, ss) ∧
    (transferMsgs env d (msg :: rest) i (st, ss)).2.2.head? =
      some (Event.hwTrans (mkReq d msg)) := by
  constructor
  · have hne : ¬(msg.cs_delay_first = st.cs_delay_first ∧
        msg.cs_delay_last = st.cs_delay_last) := by
      rcases h with ⟨h1, _⟩ | ⟨h1, _⟩
      · exact fun hc => h1 hc.1
      · exact fun hc => h1 hc.2
    rcases h with ⟨h1, h2⟩ | ⟨h1, h2⟩
    · simp only [max_delay_config, if_neg hne, if_pos h1, if_pos h2]
    · by_cases hf : msg.cs_delay_first = st.cs_delay_first
      · simp only [max_delay_config, if_neg hne, if_neg (not_not_intro hf),
          if_pos h1, if_pos h2]
      · by_cases hf2 : firstTicks env.clk_rate msg.cs_delay_first > MAX_DELAY_SCLK
        · simp only [max_delay_config, if_neg hne, if_pos hf, if_pos hf2]
        · simp only [max_delay_config, if_neg hne, if_pos hf, if_neg hf2,
            if_pos h1, if_pos h2]
  · simp only [transferMsgs]
    split
    · rfl
    · split
      · rfl
      · rfl

/-- C5 witness: at a 100 MHz clock a requested first delay of 10 µs
computes 1000 ticks, above the 255 ceiling; the applier returns the
entry cache and register untouched, and the transaction still runs. -/
theorem c5_out_of_range_restores_register_witness :
    max_delay_config 100000000 ⟨0, 0⟩ ⟨7, 7, 9⟩
      ⟨none, none, 0, 0, 0, 10, 0⟩ = (⟨0, 0⟩, ⟨7, 7, 9⟩) ∧
    (transferMsgs ⟨0, fun _ => 0, 100000000⟩ ⟨0, 0⟩
        [⟨none, none, 0, 0, 0, 10, 0⟩] 0 (⟨0, 0⟩, ⟨7, 7, 9⟩)).2.2.head? =
      some (Event.hwTrans (mkReq ⟨0, 0⟩ ⟨none, none, 0, 0, 0, 10, 0⟩)) :=
  c5_out_of_range_restores_register ⟨0, fun _ => 0, 100000000⟩ ⟨0, 0⟩
    ⟨7, 7, 9⟩ ⟨none, none, 0, 0, 0, 10, 0⟩ ⟨0, 0⟩ [] 0
    (Or.inl ⟨by decide, by decide⟩)

/-- C7: when the descriptor's chip select differs from the
`last_slave_id` entry of its bus instance, the configuration step runs
before any message (it is the first event of the trace); if it fails
its error is returned with the state — table included — unchanged and
no hardware transaction in the trace; if it succeeds the table entry
becomes the descriptor's chip select. -/
theorem c7_reconfigures_on_cs_change (env : HwEnv) (s : TransferState)
    (d : SpiDesc) (ms : List SpiMsg)
    (h : d.chip_select ≠ s.table d.device_id) :
    (max_spi_transfer env s (some d) (some ms)).2.2.head? =
      some Event.configCall ∧
    (env.config_res ≠ 0 →
      max_spi_transfer env s (some d) (some ms) =
        (env.config_res, s, [Event.configCall])) ∧
    (env.config_res = 0 →
      (max_spi_transfer env s (some d) (some ms)).2.1.table d.device_id =
        d.chip_select) := by
  by_cases hc : env.config_res = 0
  · refine ⟨?_, fun hn => absurd hc hn, fun _ => ?_⟩
    · simp only [max_spi_transfer, if_pos h, if_neg (not_not_intro hc)]
      rfl
    · simp only [max_spi_transfer, if_pos h, if_neg (not_not_intro hc),
        if_pos rfl, if_true, eq_self_iff_true, ite_true]
  · refine ⟨?_, fun _ => ?_, fun h0 => absurd h0 hc⟩
    · simp only [max_spi_transfer, if_pos h, if_pos hc]
      rfl
    · simp only [max_spi_transfer, if_pos h, if_pos hc]

/-- C7 witness: chip select 5 against a zero table entry on bus 0, with
a succeeding configuration step: the trace starts with the
configuration call and the table entry becomes 5. -/
theorem c7_reconfigures_on_cs_change_witness :
    (5 : Nat) ≠ 0 ∧
    (max_spi_transfer ⟨0, fun _ => 0, 100000000⟩
        ⟨fun _ => 0, ⟨0, 0⟩, ⟨1, 1, 0⟩⟩ (some ⟨0, 5⟩) (some [])).2.2.head? =
      some Event.configCall ∧
    (max_spi_transfer ⟨0, fun _ => 0, 100000000⟩
        ⟨fun _ => 0, ⟨0, 0⟩, ⟨1, 1, 0⟩⟩ (some ⟨0, 5⟩)
        (some [])).2.1.table 0 = 5 :=
  ⟨by decide,
   (c7_reconfigures_on_cs_change ⟨0, fun _ => 0, 100000000⟩
     ⟨fun _ => 0, ⟨0, 0⟩, ⟨1, 1, 0⟩⟩ ⟨0, 5⟩ [] (by decide)).1,
   (c7_reconfigures_on_cs_change ⟨0, fun _ => 0, 100000000⟩
     ⟨fun _ => 0, ⟨0, 0⟩, ⟨1, 1, 0⟩⟩ ⟨0, 5⟩ [] (by decide)).2.2 rfl⟩

/-- C2 (amended): the loop maps `E_BAD_PARAM` to `-EINVAL` and
`E_BAD_STATE` to `-EBUSY`, in both cases aborting the remaining
messages and returning immediately after the failing transaction; every
OTHER transaction result — zero or not — is ignored: the call's result
is exactly the result of processing the remaining messages, so such a
failure is never surfaced. -/
theorem c2_bad_param_bad_state_mapped_rest_ignored (env : HwEnv)
    (d : SpiDesc) (msg : SpiMsg) (rest : List SpiMsg) (i : Nat)
    (p : MaxSpiState × SsTime) :
    (env.trans_res i = E_BAD_PARAM →
      transferMsgs env d (msg :: rest) i p =
        (-EINVAL, max_delay_config env.clk_rate p.1 p.2 msg,
          [Event.hwTrans (mkReq d msg)])) ∧
    (env.trans_res i = E_BAD_STATE →
      transferMsgs env d (msg :: rest) i p =
        (-EBUSY, max_delay_config env.clk_rate p.1 p.2 msg,
          [Event.hwTrans (mkReq d msg)])) ∧
    (env.trans_res i ≠ E_BAD_PARAM → env.trans_res i ≠ E_BAD_STATE →
      (transferMsgs env d (msg :: rest) i p).1 =
        (transferMsgs env d rest (i + 1)
          (max_delay_config env.clk_rate p.1 p.2 msg)).1) := by
  refine ⟨fun h => ?_, fun h => ?_, fun h1 h2 => ?_⟩
  · simp only [transferMsgs, if_pos h]
  · have hne : env.trans_res i ≠ E_BAD_PARAM := by
      rw [h]; decide
    simp only [transferMsgs, if_neg hne, if_pos h]
  · simp only [transferMsgs, if_neg h1, if_neg h2]

/-- C2 witness: with transaction result -3 (`E_BAD_PARAM`) the call
returns `-EINVAL` after one transaction; with -7 (`E_BAD_STATE`) it
returns `-EBUSY`; with -9 the result of a two-message transfer equals
the result of the remaining one-message transfer. -/
theorem c2_bad_param_bad_state_mapped_rest_ignored_witness :
    transferMsgs ⟨0, fun _ => -3, 100000000⟩ ⟨0, 0⟩
      [⟨some 1, some 1, 4, 1, 0, 0, 0⟩] 0 (⟨0, 0⟩, ⟨1, 1, 0⟩) =
      (-EINVAL,
        max_delay_config 100000000 ⟨0, 0⟩ ⟨1, 1, 0⟩
          ⟨some 1, some 1, 4, 1, 0, 0, 0⟩,
        [Event.hwTrans (mkReq ⟨0, 0⟩ ⟨some 1, some 1, 4, 1, 0, 0, 0⟩)]) ∧
    transferMsgs ⟨0, fun _ => -7, 100000000⟩ ⟨0, 0⟩
      [⟨some 1, some 1, 4, 1, 0, 0, 0⟩] 0 (⟨0, 0⟩, ⟨1, 1, 0⟩) =
      (-EBUSY,
        max_delay_config 100000000 ⟨0, 0⟩ ⟨1, 1, 0⟩
          ⟨some 1, some 1, 4, 1, 0, 0, 0⟩,
        [Event.hwTrans (mkReq ⟨0, 0⟩ ⟨some 1, some 1, 4, 1, 0, 0, 0⟩)]) ∧
    (transferMsgs ⟨0, fun _ => -9, 100000000⟩ ⟨0, 0⟩
      [⟨some 1, some 1, 4, 1, 0, 0, 0⟩, ⟨some 1, some 1, 4, 1, 0, 0, 0⟩]
      0 (⟨0, 0⟩, ⟨1, 1, 0⟩)).1 =
      (transferMsgs ⟨0, fun _ => -9, 100000000⟩ ⟨0, 0⟩
        [⟨some 1, some 1, 4, 1, 0, 0, 0⟩] 1
        (max_delay_config 100000000 ⟨0, 0⟩ ⟨1, 1, 0⟩
          ⟨some 1, some 1, 4, 1, 0, 0, 0⟩)).1 :=
  ⟨(c2_bad_param_bad_state_mapped_rest_ignored ⟨0, fun _ => -3, 100000000⟩
      ⟨0, 0⟩ ⟨some 1, some 1, 4, 1, 0, 0, 0⟩ [] 0
      (⟨0, 0⟩, ⟨1, 1, 0⟩)).1 rfl,
   (c2_bad_param_bad_state_mapped_rest_ignored ⟨0, fun _ => -7, 100000000⟩
      ⟨0, 0⟩ ⟨some 1, some 1, 4, 1, 0, 0, 0⟩ [] 0
      (⟨0, 0⟩, ⟨1, 1, 0⟩)).2.1 rfl,
   (c2_bad_param_bad_state_mapped_rest_ignored ⟨0, fun _ => -9, 100000000⟩
      ⟨0, 0⟩ ⟨some 1, some 1, 4, 1, 0, 0, 0⟩
      [⟨some 1, some 1, 4, 1, 0, 0, 0⟩] 0
      (⟨0, 0⟩, ⟨1, 1, 0⟩)).2.2 (by decide) (by decide)⟩

/-- C3 (amended): for a message whose nonzero first delay differs from
the cache and whose nonzero-checked last delay differs likewise, with
both computed tick counts within range, the applier writes the
TRUNCATED quotients `d * NS_PER_US / ticks_ns` (the product taken mod
2^32) into the PRE and POST fields — floor division, not the
round-to-nearest the claim states. -/
theorem c3_ticks_are_truncated_quotients (clk : Nat) (st : MaxSpiState)
    (ss : SsTime) (msg : SpiMsg)
    (h0 : msg.cs_delay_first ≠ 0)
    (h1 : msg.cs_delay_first ≠ st.cs_delay_first)
    (h2 : ¬ firstTicks clk msg.cs_delay_first > MAX_DELAY_SCLK)
    (h3 : msg.cs_delay_last ≠ st.cs_delay_last)
    (h4 : ¬ lastTicks clk msg.cs_delay_first msg.cs_delay_last >
        MAX_DELAY_SCLK) :
    (max_delay_config clk st ss msg).2.pre =
      msg.cs_delay_first * NS_PER_US % U32 / ticksNs clk ∧
    (max_delay_config clk st ss msg).2.post =
      msg.cs_delay_last * NS_PER_US % U32 / ticksNs clk := by
  have hne : ¬(msg.cs_delay_first = st.cs_delay_first ∧
      msg.cs_delay_last = st.cs_delay_last) := fun hc => h1 hc.1
  constructor
  · simp only [max_delay_config, if_neg hne, if_pos h1, if_neg h2,
      if_pos h3, if_neg h4]
    simp only [firstTicks, if_neg h0]
  · simp only [max_delay_config, if_neg hne, if_pos h1, if_neg h2,
      if_pos h3, if_neg h4]
    simp only [lastTicks, if_neg h0]

/-- C3 witness: at a 7 MHz clock (143 ns/tick) a message with first
delay 1 µs and last delay 2 µs over a zero cache gets `pre = 6` and
`post = 13`, the truncated quotients. -/
theorem c3_ticks_are_truncated_quotients_witness :
    (max_delay_config 7000000 ⟨0, 0⟩ ⟨9, 9, 9⟩
        ⟨none, none, 0, 0, 0, 1, 2⟩).2.pre =
      1 * NS_PER_US % U32 / ticksNs 7000000 ∧
    (max_delay_config 7000000 ⟨0, 0⟩ ⟨9, 9, 9⟩
        ⟨none, none, 0, 0, 0, 1, 2⟩).2.post =
      2 * NS_PER_US % U32 / ticksNs 7000000 :=
  c3_ticks_are_truncated_quotients 7000000 ⟨0, 0⟩ ⟨9, 9, 9⟩
    ⟨none, none, 0, 0, 0, 1, 2⟩ (by decide) (by decide) (by decide)
    (by decide) (by decide)

/-- C6 (amended): at a fixed clock rate whose rounded tick period is
positive and at most `NS_PER_US` = 1000 ns (so one microsecond is at
least one tick), the computed tick count is monotonic non-decreasing
over every pair of delays whose nanosecond product does not overflow
`uint32_t`, and d = 0 yields the minimum tick count 1.  (The
counterexample shows monotonicity fails at slower clocks, where a
nonzero delay truncates to 0 ticks, below the substituted minimum 1.) -/
theorem c6_monotone_at_fast_clock (clk d1 d2 : Nat)
    (hpos : 0 < ticksNs clk) (hfast : ticksNs clk ≤ NS_PER_US)
    (hle : d1 ≤ d2) (hnw : d2 * NS_PER_US < U32) :
    firstTicks clk d1 ≤ firstTicks clk d2 ∧ firstTicks clk 0 = 1 := by
  constructor
  · by_cases hz1 : d1 = 0
    · subst hz1
      by_cases hz2 : d2 = 0
      · subst hz2; exact Nat.le_refl _
      · simp only [firstTicks, if_pos rfl, if_neg hz2]
        rw [Nat.mod_eq_of_lt hnw]
        refine (Nat.le_div_iff_mul_le hpos).mpr ?_
        calc 1 * ticksNs clk = ticksNs clk := Nat.one_mul _
          _ ≤ NS_PER_US := hfast
          _ ≤ d2 * NS_PER_US :=
            Nat.le_mul_of_pos_left _ (Nat.pos_of_ne_zero hz2)
    · have hz2 : d2 ≠ 0 := by
        intro hz
        exact hz1 (Nat.le_zero.mp (hz ▸ hle))
      simp only [firstTicks, if_neg hz1, if_neg hz2]
      have hw1 : d1 * NS_PER_US < U32 :=
        Nat.lt_of_le_of_lt (Nat.mul_le_mul_right _ hle) hnw
      rw [Nat.mod_eq_of_lt hw1, Nat.mod_eq_of_lt hnw]
      exact Nat.div_le_div_right (Nat.mul_le_mul_right _ hle)
  · rfl

/-- C6 witness: at a 100 MHz clock (10 ns/tick) the delays 0 and 3 µs
give tick counts 1 and 300 respectively, in non-decreasing order. -/
theorem c6_monotone_at_fast_clock_witness :
    firstTicks 100000000 0 ≤ firstTicks 100000000 3 ∧
    firstTicks 100000000 0 = 1 :=
  c6_monotone_at_fast_clock 100000000 0 3 (by decide) (by decide)
    (by decide) (by decide)

theorem countConfigs_config (tr : List Event) :
    countConfigs (Event.configCall :: tr) = countConfigs tr + 1 := by
  simp [countConfigs, List.countP_cons]

theorem countConfigs_hwTrans (r : Req) (tr : List Event) :
    countConfigs (Event.hwTrans r :: tr) = countConfigs tr := by
  simp [countConfigs, List.countP_cons]

theorem countConfigs_udelay (n : Nat) (tr : List Event) :
    countConfigs (Event.udelay n :: tr) = countConfigs tr := by
  simp [countConfigs, List.countP_cons]

theorem countConfigs_append (t1 t2 : List Event) :
    countConfigs (t1 ++ t2) = countConfigs t1 + countConfigs t2 := by
  simp [countConfigs, List.countP_append]

/-- The message loop itself never invokes the configuration step. -/
theorem transferMsgs_no_config (env : HwEnv) (d : SpiDesc) :
    ∀ (ms : List SpiMsg) (i : Nat) (p : MaxSpiState × SsTime),
    countConfigs (transferMsgs env d ms i p).2.2 = 0
  | [], _, _ => rfl
  | msg :: rest, i, p => by
    simp only [transferMsgs]
    split
    · rfl
    · split
      · rfl
      · rw [countConfigs_hwTrans, countConfigs_udelay]
        exact transferMsgs_no_config env d rest (i + 1) _

/-- A transfer call whose chip select matches the table entry performs
no configuration call and leaves the whole table unchanged. -/
theorem transfer_same_cs_no_config (env : HwEnv) (s : TransferState)
    (d : SpiDesc) (ms : List SpiMsg)
    (h : d.chip_select = s.table d.device_id) :
    countConfigs (max_spi_transfer env s (some d) (some ms)).2.2 = 0 ∧
    (max_spi_transfer env s (some d) (some ms)).2.1.table = s.table := by
  constructor
  · simp only [max_spi_transfer, if_neg (not_not_intro h)]
    exact transferMsgs_no_config env d ms 0 _
  · simp only [max_spi_transfer, if_neg (not_not_intro h)]

/-- A transfer call whose chip select differs from the table entry,
with a succeeding configuration step, performs exactly one
configuration call and updates exactly that table entry. -/
theorem transfer_new_cs_one_config (env : HwEnv) (s : TransferState)
    (d : SpiDesc) (ms : List SpiMsg)
    (h : d.chip_select ≠ s.table d.device_id) (hc : env.config_res = 0) :
    countConfigs (max_spi_transfer env s (some d) (some ms)).2.2 = 1 ∧
    ∀ j, (max_spi_transfer env s (some d) (some ms)).2.1.table j =
      if j = d.device_id then d.chip_select else s.table j := by
  constructor
  · simp only [max_spi_transfer, if_pos h, if_neg (not_not_intro hc)]
    rw [countConfigs_config, transferMsgs_no_config]
  · intro j
    simp only [max_spi_transfer, if_pos h, if_neg (not_not_intro hc)]

/-- Repeated calls whose chip select already matches the table entry
never invoke the configuration step. -/
theorem runCalls_same_cs_zero (env : HwEnv) (d : SpiDesc) (ms : List SpiMsg) :
    ∀ (n : Nat) (s : TransferState), d.chip_select = s.table d.device_id →
    countConfigs (runCalls env s (List.replicate n (d, ms))).2 = 0
  | 0, _, _ => rfl
  | n + 1, s, h => by
    rw [List.replicate_succ]
    simp only [runCalls]
    rw [countConfigs_append, (transfer_same_cs_no_config env s d ms h).1]
    rw [runCalls_same_cs_zero env d ms n _
      (by rw [(transfer_same_cs_no_config env s d ms h).2]; exact h)]

/-- Alternating calls, starting from a table entry that differs from
the first chip select, invoke the configuration step on every call. -/
theorem runCalls_alternating_each (env : HwEnv) (ms : List SpiMsg)
    (dev : Nat) (hc : env.config_res = 0) :
    ∀ (n a b : Nat) (s : TransferState), a ≠ b → s.table dev ≠ a →
    countConfigs (runCalls env s (altCalls dev a b ms n)).2 = n
  | 0, _, _, _, _, _ => rfl
  | n + 1, a, b, s, hab, hsa => by
    simp only [altCalls, runCalls]
    have h : (⟨dev, a⟩ : SpiDesc).chip_select ≠
        s.table (⟨dev, a⟩ : SpiDesc).device_id := Ne.symm hsa
    rw [countConfigs_append, (transfer_new_cs_one_config env s ⟨dev, a⟩ ms h hc).1]
    rw [runCalls_alternating_each env ms dev hc n b a _ (Ne.symm hab)
      (by rw [(transfer_new_cs_one_config env s ⟨dev, a⟩ ms h hc).2 dev]
          simpa using hab)]
    exact Nat.add_comm 1 n

/-- C8 (amended): with a succeeding configuration step, a run of
transfer calls addressing the same chip select repeatedly invokes the
configuration step AT MOST once — exactly once when the chip select
differs from the table entry at the start, and zero times when it
already matches (so "exactly once" as claimed fails in the matching
case) — while a run alternating between two distinct chip selects
whose first value differs from the initial table entry invokes it on
every call. -/
theorem c8_config_at_most_once_alternating_each :
    (∀ (env : HwEnv) (s : TransferState) (d : SpiDesc) (ms : List SpiMsg)
        (n : Nat), env.config_res = 0 →
      countConfigs (runCalls env s (List.replicate (n + 1) (d, ms))).2 =
        if d.chip_select = s.table d.device_id then 0 else 1) ∧
    (∀ (env : HwEnv) (s : TransferState) (dev a b : Nat)
        (ms : List SpiMsg) (n : Nat),
      env.config_res = 0 → a ≠ b → s.table dev ≠ a →
      countConfigs (runCalls env s (altCalls dev a b ms n)).2 = n) := by
  constructor
  · intro env s d ms n hc
    by_cases h : d.chip_select = s.table d.device_id
    · rw [if_pos h]
      exact runCalls_same_cs_zero env d ms (n + 1) s h
    · rw [if_neg h, List.replicate_succ]
      simp only [runCalls]
      rw [countConfigs_append, (transfer_new_cs_one_config env s d ms h hc).1]
      rw [runCalls_same_cs_zero env d ms n _
        (by rw [(transfer_new_cs_one_config env s d ms h hc).2 d.device_id]
            simp)]
  · intro env s dev a b ms n hc hab hsa
    exact runCalls_alternating_each env ms dev hc n a b s hab hsa

/-- C8 witness: with a zero-initialized table, two calls at chip
select 5 on bus 0 invoke the configuration step once in total, and
four calls alternating between chip selects 1 and 2 invoke it on every
call. -/
theorem c8_config_at_most_once_alternating_each_witness :
    countConfigs (runCalls ⟨0, fun _ => 0, 100000000⟩
      ⟨fun _ => 0, ⟨0, 0⟩, ⟨1, 1, 0⟩⟩
      (List.replicate 2 (⟨0, 5⟩, []))).2 = 1 ∧
    countConfigs (runCalls ⟨0, fun _ => 0, 100000000⟩
      ⟨fun _ => 0, ⟨0, 0⟩, ⟨1, 1, 0⟩⟩ (altCalls 0 1 2 [] 4)).2 = 4 :=
  ⟨(c8_config_at_most_once_alternating_each.1 ⟨0, fun _ => 0, 100000000⟩
      ⟨fun _ => 0, ⟨0, 0⟩, ⟨1, 1, 0⟩⟩ ⟨0, 5⟩ [] 1 rfl).trans
    (if_neg (by decide)),
   c8_config_at_most_once_alternating_each.2 ⟨0, fun _ => 0, 100000000⟩
    ⟨fun _ => 0, ⟨0, 0⟩, ⟨1, 1, 0⟩⟩ 0 1 2 [] 4 rfl (by decide) (by decide)⟩

end MaximSpi
